import Mathlib

/-!
Verification of the vaccination-reminder dashboard (JavaScript source).

Times are modelled as integer millisecond timestamps, the unit used by the
source (`Date.getTime()`, `30 * 24 * 60 * 60 * 1000`).  A calendar-date
string such as `"2024-07-01"` parses in JavaScript to the UTC midnight of
that day, so parsed form dates are midnight-aligned timestamps; `new Date()`
is the full current timestamp, midnight-aligned only at exactly midnight.
-/

/-- Milliseconds per day, the constant `24 * 60 * 60 * 1000` of the source. -/
def msPerDay : Int := 24 * 60 * 60 * 1000

/-- The midnight (start of calendar day, UTC convention) of a timestamp. -/
def startOfDay (t : Int) : Int := t - t.emod msPerDay

/-- End of the day of `t`: `setHours(23, 59, 59, 999)` of the source, i.e.
the last millisecond of the calendar day containing `t`. -/
def endOfDay (t : Int) : Int := startOfDay t + (msPerDay - 1)

/-- Two timestamps fall on the same calendar day. -/
def sameCalendarDay (a b : Int) : Bool := startOfDay a == startOfDay b

/-- Status value returned by `getVaccineStatus`: the `{class, text}` object
of `utils.js` (`class` is a Lean keyword, hence the field name
`statusClass`). -/
structure VStatus where
  statusClass : String
  text : String
deriving DecidableEq, Repr

/-- `getVaccineStatus(nextDue)` from `utils.js`, with the current time and
the parsed due date passed explicitly: `new Date(nextDue)` is the `due`
timestamp, `new Date()` is `now`, and
`thirtyDaysFromNow = now + 30 * 24 * 60 * 60 * 1000`. -/
def getVaccineStatus (nextDue : Option Int) (now : Int) : VStatus :=
  match nextDue with
  | none => ⟨"current", "Complete"⟩
  | some due =>
    if due < now then ⟨"overdue", "Overdue"⟩
    else if due ≤ now + 30 * msPerDay then ⟨"upcoming", "Due Soon"⟩
    else ⟨"current", "Up to Date"⟩

/-- ASCII lower-casing: the `.toLowerCase()` of the source on its ASCII
vaccine names, profile names and search terms. -/
def toLowerStr (s : String) : String := String.mk (s.toList.map Char.toLower)

/-- `.trim()` of the source: strip leading and trailing whitespace. -/
def trimStr (s : String) : String :=
  String.mk (((s.toList.dropWhile Char.isWhitespace).reverse.dropWhile Char.isWhitespace).reverse)

/-- `a` is a prefix of `b` (character lists). -/
def leadsWith : List Char → List Char → Bool
  | [], _ => true
  | _ :: _, [] => false
  | a :: as, b :: bs => a == b && leadsWith as bs

/-- `s.includes(pat)` of JavaScript: `pat` occurs as a contiguous substring
of `s` (always true for the empty pattern). -/
def strIncludes (s pat : String) : Bool :=
  go pat.toList s.toList
where
  go (pat : List Char) : List Char → Bool
  | [] => pat.isEmpty
  | c :: rest => leadsWith pat (c :: rest) || go pat rest

/-- JavaScript `parseInt(s)` restricted to decimal input, which is all this
form field can contain: skip leading whitespace, read an optional sign and
then the maximal run of leading decimal digits; `none` models `NaN` (no
digits).  So `parseIntJS "1.5" = some 1` and `parseIntJS "2abc" = some 2`,
exactly as `parseInt` truncates. -/
def parseIntJS (s : String) : Option Int :=
  let chars := s.toList.dropWhile (fun c => c.isWhitespace)
  let signed : Int × List Char :=
    match chars with
    | '-' :: r => (-1, r)
    | '+' :: r => (1, r)
    | r => (1, r)
  let digits := signed.2.takeWhile Char.isDigit
  if digits.isEmpty then none
  else some (signed.1 * (digits.foldl (fun acc c => acc * 10 + (c.toNat - 48)) 0 : Nat))

/-- Joined owner-profile projection carried on a loaded record
(`profiles!vaccination_records_user_id_fkey(full_name, email)`).  `none` on
a string field models a `null` column; the empty string is JavaScript-falsy
and is handled separately at the use sites. -/
structure ProfileInfo where
  full_name : Option String
  email : Option String
deriving DecidableEq, Repr

/-- A `vaccination_records` row as held in dashboard memory.  Dates are
parsed millisecond timestamps (midnight of the stored calendar date);
`profiles` is the joined owner projection, absent when the join returned
nothing. -/
structure VaccinationRecord where
  id : Nat
  user_id : Nat
  vaccine_name : String
  dose_number : Int
  date_given : Int
  next_due : Option Int
  profiles : Option ProfileInfo
deriving DecidableEq, Repr

/-- A `reminders` row. -/
structure Reminder where
  id : Nat
  user_id : Nat
  record_id : Nat
  due_date : Int
  sent : Bool
deriving DecidableEq, Repr

/-- The Dashboard instance state: the in-memory arrays and role of the
constructor, plus `currentDeleteId` (held on the modal manager in the
source, threaded between `deleteRecord` and `confirmDelete`). -/
structure DashState where
  records : List VaccinationRecord
  reminders : List Reminder
  filteredRecords : List VaccinationRecord
  currentUser : Option Nat
  currentUserRole : String
  currentDeleteId : Option Nat
deriving DecidableEq, Repr

/-- The constructor's initial state (`records = []`, `reminders = []`,
`filteredRecords = []`, `currentUser = null`, role `"user"`). -/
def initialDashState : DashState :=
  { records := [], reminders := [], filteredRecords := [],
    currentUser := none, currentUserRole := "user", currentDeleteId := none }

/-- A toast notification: message and type (`"error"`, `"success"`). -/
abbrev Toast := String × String

/-- `checkAdminPermission(action)`: fails with an access-denied toast
whenever the current role is not `"admin"`. -/
def checkAdminPermission (role : String) (action : String) : Bool × List Toast :=
  if role != "admin" then
    (false, [(s!"Access denied: Only administrators can {action}", "error")])
  else (true, [])

/-- `checkUserDataAccess(userId)`: admins may touch every row, users only
rows whose `user_id` is their own identity. -/
def checkUserDataAccess (st : DashState) (userId : Nat) : Bool :=
  if st.currentUserRole == "admin" then true
  else match st.currentUser with
    | some uid => uid == userId
    | none => false

/-- The search predicate of `performSearch`: vaccine name, or — whenever
the record carries a joined profile — non-empty owner full name or email,
contains the (already lower-cased, trimmed) term.  The `p.full_name && …`
guards of the source make the empty string fail the match. -/
def matchesSearch (term : String) (r : VaccinationRecord) : Bool :=
  strIncludes (toLowerStr r.vaccine_name) term ||
  (match r.profiles with
   | some p =>
     (match p.full_name with
      | some n => !(n == "") && strIncludes (toLowerStr n) term
      | none => false) ||
     (match p.email with
      | some e => !(e == "") && strIncludes (toLowerStr e) term
      | none => false)
   | none => false)

/-- `performSearch(searchTerm)`: lower-case and trim the term; an empty
term restores a copy of `records` as `filteredRecords`, otherwise
`filteredRecords` becomes the filter of `records` by `matchesSearch`.
No store access, no change to `records` or `reminders`. -/
def performSearch (st : DashState) (searchTerm : String) : DashState :=
  let term := trimStr (toLowerStr searchTerm)
  if term == "" then { st with filteredRecords := st.records }
  else { st with filteredRecords := st.records.filter (matchesSearch term) }

/-- `updateStats()`: the four counters
(total, up-to-date, upcoming, overdue), computed from `this.records` and
`this.reminders` with `today = new Date()` passed as `now`:
up-to-date counts records with no `next_due` or `next_due` parsed strictly
after `now`; upcoming counts reminders with
`now ≤ due ≤ now + 30 * 24 * 60 * 60 * 1000`; overdue counts reminders
with `due < now`. -/
def updateStats (st : DashState) (now : Int) : Nat × Nat × Nat × Nat :=
  let totalVaccines := st.records.length
  let upToDate := (st.records.filter (fun r =>
    match r.next_due with
    | none => true
    | some d => decide (now < d))).length
  let thirtyDaysFromNow := now + 30 * msPerDay
  let upcomingReminders := (st.reminders.filter (fun r =>
    decide (now ≤ r.due_date) && decide (r.due_date ≤ thirtyDaysFromNow))).length
  let overdue := (st.reminders.filter (fun r => decide (r.due_date < now))).length
  (totalVaccines, upToDate, upcomingReminders, overdue)

/-- `destroy()`: reset the in-memory arrays, user and role. -/
def destroy (st : DashState) : DashState :=
  { st with
    records := [],
    reminders := [],
    filteredRecords := [],
    currentUser := none,
    currentUserRole := "user" }

/-- The add/edit form contents.  `dose_number` stays a raw string (its
`parseInt` behaviour is under test); the date fields carry the parsed
timestamp of the date input, `none` modelling the empty string (which is
falsy, as in `formData.next_due || null`). -/
structure FormData where
  vaccine_name : String
  dose_number : String
  date_given : Option Int
  next_due : Option Int
deriving DecidableEq, Repr

/-- `validateVaccineFormData(formData)`: required-fields check, then
`parseInt` of the dose (rejecting `NaN` and values below 1), then
`date_given ≤ end of today`, then — when `next_due` is present —
`next_due > date_given`.  Returns the verdict together with the toast
surfaced for the specific failing rule. -/
def validateVaccineFormData (fd : FormData) (now : Int) : Bool × List Toast :=
  if fd.vaccine_name == "" || fd.dose_number == "" || fd.date_given.isNone then
    (false, [("Please fill in all required fields", "error")])
  else
    match parseIntJS fd.dose_number with
    | none => (false, [("Dose number must be a positive integer", "error")])
    | some doseNum =>
      if doseNum < 1 then
        (false, [("Dose number must be a positive integer", "error")])
      else
        let givenDate := fd.date_given.getD 0
        if givenDate > endOfDay now then
          (false, [("Date given cannot be in the future", "error")])
        else
          match fd.next_due with
          | some nextDue =>
            if nextDue ≤ givenDate then
              (false, [("Next due date must be after the date given", "error")])
            else (true, [])
          | none => (true, [])

/-- One remote store call, as issued by the mutation paths. -/
inductive StoreCall where
  | insertRecordRow (userId : Nat) (vaccineName : String) (doseNumber : Int)
      (dateGiven : Option Int) (nextDue : Option Int)
  | insertReminderRow (userId : Nat) (recordId : Nat) (dueDate : Int)
  | selectReminderRow (recordId : Nat)
  | updateReminderRow (recordId : Nat) (dueDate : Int)
  | deleteReminderRow (recordId : Nat)
  | updateRecordRow (recordId : Nat) (vaccineName : String) (doseNumber : Int)
      (dateGiven : Option Int) (nextDue : Option Int)
  | deleteRecordRow (recordId : Nat)
deriving DecidableEq, Repr

/-- Environment supplying the remote store's responses: outcome of a
record insert (`some id` on success), injected failures for the other
writes, the reload query results (`none` models a query error), the
current remote `reminders` table, and the id the store would assign to a
newly inserted reminder. -/
structure StoreEnv where
  insertRecordResult : Option Nat
  insertReminderFails : Bool
  updateRecordFails : Bool
  deleteRecordFails : Bool
  recordsResult : Option (List VaccinationRecord)
  remindersResult : Option (List Reminder)
  remoteReminders : List Reminder
  freshReminderId : Nat
deriving DecidableEq, Repr

/-- Observable outcome of one view-model operation: the new dashboard
state, the toasts shown, the store calls issued, and the `console.error`
lines emitted. -/
structure OpResult where
  state : DashState
  toasts : List Toast
  calls : List StoreCall
  logs : List String
deriving DecidableEq, Repr

/-- `loadVaccinationData()`: reload `records` (with `filteredRecords` set
to a copy) and `reminders`; each inner query error leaves the empty list,
and a missing user clears everything with an error toast. -/
def loadVaccinationData (st : DashState) (env : StoreEnv) : DashState × List Toast :=
  match st.currentUser with
  | none =>
    ({ st with records := [], reminders := [], filteredRecords := [] },
     [("Error loading vaccination data", "error")])
  | some _ =>
    let recs := match env.recordsResult with
      | some rs => rs
      | none => []
    let rems := match env.remindersResult with
      | some rl => rl
      | none => []
    ({ st with records := recs, filteredRecords := recs, reminders := rems }, [])

/-- `createReminder(recordId, dueDate)`: insert a reminder row for the
current user; an insert error is only logged (`console.error`) and never
propagated, leaving the remote table unchanged.  A missing current user
throws inside the local `try` and is likewise only logged. -/
def createReminder (fails : Bool) (tbl : List Reminder) (newId : Nat)
    (userOpt : Option Nat) (recordId : Nat) (due : Int) :
    List StoreCall × List String × List Reminder :=
  match userOpt with
  | none => ([], ["Error in createReminder"], tbl)
  | some uid =>
    if fails then
      ([.insertReminderRow uid recordId due], ["Error creating reminder"], tbl)
    else
      ([.insertReminderRow uid recordId due], [],
       tbl ++ [⟨newId, uid, recordId, due, false⟩])

/-- The `.select("id").eq("record_id", recordId).eq("sent", false).single()`
lookup: the row when the filter matches exactly one, otherwise `null`
(`single()` errors on zero or several rows and its error is discarded). -/
def selectSingleReminder (tbl : List Reminder) (recordId : Nat) : Option Reminder :=
  match tbl.filter (fun r => r.record_id == recordId && r.sent == false) with
  | [r] => some r
  | _ => none

/-- `updateRecordReminder(recordId, nextDueDate)`: look up the open
reminder of the record; with a due date present, update it (or create one
when absent); with no due date, delete it when present.  Returns the calls
issued, the `console.error` lines, and the remote table afterwards. -/
def updateRecordReminder (fails : Bool) (tbl : List Reminder) (newId : Nat)
    (userOpt : Option Nat) (recordId : Nat) (nextDueDate : Option Int) :
    List StoreCall × List String × List Reminder :=
  let existing := selectSingleReminder tbl recordId
  match nextDueDate, existing with
  | some due, some _ =>
    ([.selectReminderRow recordId, .updateReminderRow recordId due], [],
     tbl.map (fun r => if r.record_id == recordId then { r with due_date := due } else r))
  | some due, none =>
    let c := createReminder fails tbl newId userOpt recordId due
    (.selectReminderRow recordId :: c.1, c.2.1, c.2.2)
  | none, some _ =>
    ([.selectReminderRow recordId, .deleteReminderRow recordId], [],
     tbl.filter (fun r => !(r.record_id == recordId)))
  | none, none => ([.selectReminderRow recordId], [], tbl)

/-- `addRecord(formData)`: admin gate, validation, record insert (whose
error aborts with an error toast), optional dependent reminder insert via
`createReminder` (whose failure is only logged), then the reload path and
a success toast. -/
def addRecord (now : Int) (st : DashState) (fd : FormData) (env : StoreEnv) :
    OpResult × List Reminder :=
  let gate := checkAdminPermission st.currentUserRole "add vaccination records"
  if !gate.1 then (⟨st, gate.2, [], []⟩, env.remoteReminders)
  else
    let v := validateVaccineFormData fd now
    if !v.1 then (⟨st, v.2, [], []⟩, env.remoteReminders)
    else
      match st.currentUser with
      | none =>
        (⟨st, [("Error adding vaccination record", "error")], [],
          ["Error adding vaccination record"]⟩, env.remoteReminders)
      | some uid =>
        let insCall := StoreCall.insertRecordRow uid fd.vaccine_name
          ((parseIntJS fd.dose_number).getD 0) fd.date_given fd.next_due
        match env.insertRecordResult with
        | none =>
          (⟨st, [("Error adding vaccination record", "error")], [insCall],
            ["Error adding vaccination record"]⟩, env.remoteReminders)
        | some newId =>
          let rem : List StoreCall × List String × List Reminder :=
            match fd.next_due with
            | some due =>
              createReminder env.insertReminderFails env.remoteReminders
                env.freshReminderId (some uid) newId due
            | none => ([], [], env.remoteReminders)
          let ld := loadVaccinationData st env
          (⟨ld.1, ld.2 ++ [("Vaccination record added successfully!", "success")],
            insCall :: rem.1, rem.2.1⟩, rem.2.2)

/-- `editRecord(recordId)`: admin gate, lookup in the in-memory records,
per-row access check; the admin path only populates the edit form and
opens the modal (DOM work), issuing no store call. -/
def editRecord (st : DashState) (recordId : Nat) : OpResult :=
  let gate := checkAdminPermission st.currentUserRole "edit vaccination records"
  if !gate.1 then ⟨st, gate.2, [], []⟩
  else
    match st.records.find? (fun r => r.id == recordId) with
    | none => ⟨st, [("Record not found", "error")], [], []⟩
    | some record =>
      if checkUserDataAccess st record.user_id then ⟨st, [], [], []⟩
      else ⟨st, [("Access denied: You can only view your own data", "error")], [], []⟩

/-- `updateRecord(formData)`: admin gate, the record id read from the edit
form (`none` models a missing element/value), validation, the record
update (whose error aborts with an error toast), the reminder
synchronization, then the reload path and a success toast. -/
def updateRecord (now : Int) (st : DashState) (editRecordId : Option Nat)
    (fd : FormData) (env : StoreEnv) : OpResult × List Reminder :=
  let gate := checkAdminPermission st.currentUserRole "update vaccination records"
  if !gate.1 then (⟨st, gate.2, [], []⟩, env.remoteReminders)
  else
    match editRecordId with
    | none => (⟨st, [("Record ID not found", "error")], [], []⟩, env.remoteReminders)
    | some recordId =>
      let v := validateVaccineFormData fd now
      if !v.1 then (⟨st, v.2, [], []⟩, env.remoteReminders)
      else
        let updCall := StoreCall.updateRecordRow recordId fd.vaccine_name
          ((parseIntJS fd.dose_number).getD 0) fd.date_given fd.next_due
        if env.updateRecordFails then
          (⟨st, [("Error updating vaccination record", "error")], [updCall],
            ["Error updating vaccination record"]⟩, env.remoteReminders)
        else
          let sync := updateRecordReminder env.insertReminderFails env.remoteReminders
            env.freshReminderId st.currentUser recordId fd.next_due
          let ld := loadVaccinationData st env
          (⟨ld.1, ld.2 ++ [("Vaccination record updated successfully!", "success")],
            updCall :: sync.1, sync.2.1⟩, sync.2.2)

/-- `deleteRecord(recordId)`: admin gate, lookup, per-row access check;
the admin path stores the id for confirmation and opens the delete modal,
issuing no store call. -/
def deleteRecord (st : DashState) (recordId : Nat) : OpResult :=
  let gate := checkAdminPermission st.currentUserRole "delete vaccination records"
  if !gate.1 then ⟨st, gate.2, [], []⟩
  else
    match st.records.find? (fun r => r.id == recordId) with
    | none => ⟨st, [("Record not found", "error")], [], []⟩
    | some record =>
      if checkUserDataAccess st record.user_id then
        ⟨{ st with currentDeleteId := some recordId }, [], [], []⟩
      else ⟨st, [("Access denied: You can only view your own data", "error")], [], []⟩

/-- `confirmDelete()`: admin gate, the stored delete id, the record delete
(whose error aborts with an error toast; the remote reminder disappears by
storage-level cascade), then the reload path and a success toast. -/
def confirmDelete (st : DashState) (env : StoreEnv) : OpResult × List Reminder :=
  let gate := checkAdminPermission st.currentUserRole "delete vaccination records"
  if !gate.1 then (⟨st, gate.2, [], []⟩, env.remoteReminders)
  else
    match st.currentDeleteId with
    | none =>
      (⟨st, [("No record selected for deletion", "error")], [], []⟩, env.remoteReminders)
    | some recordId =>
      if env.deleteRecordFails then
        (⟨st, [("Error deleting vaccination record", "error")],
          [.deleteRecordRow recordId], ["Error deleting vaccination record"]⟩,
         env.remoteReminders)
      else
        let ld := loadVaccinationData st env
        (⟨{ ld.1 with currentDeleteId := none },
          ld.2 ++ [("Vaccination record deleted successfully!", "success")],
          [.deleteRecordRow recordId], []⟩,
         env.remoteReminders.filter (fun r => !(r.record_id == recordId)))

/-! ## General lemmas -/

theorem startOfDay_le (t : Int) : startOfDay t ≤ t := by
  have h : 0 ≤ t.emod msPerDay := Int.emod_nonneg t (by decide)
  simp only [startOfDay]
  omega

theorem lt_startOfDay_add (t : Int) : t < startOfDay t + msPerDay := by
  have h : t.emod msPerDay < msPerDay := Int.emod_lt_of_pos t (by decide)
  simp only [startOfDay]
  omega

/-! ## C1 — status classifier boundary semantics -/

/-- C1 (amended): for every parsed due timestamp and every current
timestamp `now`, `getVaccineStatus` yields Overdue when `due < now`,
Due Soon when `now ≤ due ≤ now + 30 days`, and Up to Date when
`due > now + 30 days` — where the comparisons are exact millisecond
timestamp comparisons (a date string parses to its midnight), so the time
of day of `now` does decide the boundary: a due date equal to today's
calendar date is Due Soon only when `now` is exactly midnight and Overdue
at any later time of day. -/
theorem c1_status_trichotomy (due now : Int) :
    (due < now → getVaccineStatus (some due) now = ⟨"overdue", "Overdue"⟩) ∧
    (now ≤ due → due ≤ now + 30 * msPerDay →
      getVaccineStatus (some due) now = ⟨"upcoming", "Due Soon"⟩) ∧
    (now + 30 * msPerDay < due →
      getVaccineStatus (some due) now = ⟨"current", "Up to Date"⟩) := by
  have hm : msPerDay = 86400000 := rfl
  refine ⟨fun h => ?_, fun h1 h2 => ?_, fun h => ?_⟩ <;>
    simp only [getVaccineStatus]
  · rw [if_pos h]
  · rw [if_neg (by omega), if_pos h2]
  · rw [if_neg (by omega), if_neg (by omega)]

theorem c1_status_trichotomy_witness :
    (0 : Int) < 1 ∧ getVaccineStatus (some 0) 1 = ⟨"overdue", "Overdue"⟩ :=
  ⟨by decide, (c1_status_trichotomy 0 1).1 (by decide)⟩

/-- C1 counterexample: with a due date at midnight of day 0 (what the due
date string parses to), classification at `now = 0` (exactly midnight)
gives Due Soon, but at `now = 1` — one millisecond later, still the same
calendar day — it gives Overdue.  So the time of day of `now` does change
the classification at the boundary, and a due date equal to today's
calendar date is not Due Soon at any time of day. -/
theorem c1_calendar_counterexample :
    sameCalendarDay 0 1 = true ∧
    getVaccineStatus (some 0) 0 = ⟨"upcoming", "Due Soon"⟩ ∧
    getVaccineStatus (some 0) 1 = ⟨"overdue", "Overdue"⟩ ∧
    getVaccineStatus (some 0) 1 ≠ ⟨"upcoming", "Due Soon"⟩ := by decide

/-! ## C2 — non-admin mutations are denied without effects -/

/-- C2: whenever the current role is not `"admin"`, each of the five
mutation entry points (`addRecord`, `editRecord`, `deleteRecord`,
`updateRecord`, `confirmDelete`) returns with exactly one access-denied
error toast, issues no store call, leaves the whole dashboard state
(records and reminders included) unchanged, and leaves the remote
reminders table untouched. -/
theorem c2_nonadmin_mutations_denied (st : DashState)
    (h : st.currentUserRole ≠ "admin") (now : Int) (fd : FormData)
    (env : StoreEnv) (recId : Nat) (editId : Option Nat) :
    addRecord now st fd env =
      (⟨st, [("Access denied: Only administrators can add vaccination records", "error")],
        [], []⟩, env.remoteReminders) ∧
    editRecord st recId =
      ⟨st, [("Access denied: Only administrators can edit vaccination records", "error")],
        [], []⟩ ∧
    deleteRecord st recId =
      ⟨st, [("Access denied: Only administrators can delete vaccination records", "error")],
        [], []⟩ ∧
    updateRecord now st editId fd env =
      (⟨st, [("Access denied: Only administrators can update vaccination records", "error")],
        [], []⟩, env.remoteReminders) ∧
    confirmDelete st env =
      (⟨st, [("Access denied: Only administrators can delete vaccination records", "error")],
        [], []⟩, env.remoteReminders) := by
  have hb : (st.currentUserRole == "admin") = false := beq_eq_false_iff_ne.mpr h
  refine ⟨?_, ?_, ?_, ?_, ?_⟩ <;>
    simp [addRecord, editRecord, deleteRecord, updateRecord, confirmDelete,
      checkAdminPermission, bne, hb] <;> decide

theorem c2_nonadmin_mutations_denied_witness :
    addRecord 0 initialDashState ⟨"COVID-19", "1", some 0, none⟩
        ⟨some 1, false, false, false, some [], some [], [], 1⟩ =
      (⟨initialDashState,
        [("Access denied: Only administrators can add vaccination records", "error")],
        [], []⟩, []) :=
  (c2_nonadmin_mutations_denied initialDashState (by decide) 0
    ⟨"COVID-19", "1", some 0, none⟩
    ⟨some 1, false, false, false, some [], some [], [], 1⟩ 0 none).1

/-! ## C3 — updateRecord keeps the reminder in sync with next_due -/

theorem updateRecordReminder_sync (tbl : List Reminder) (newId uid recordId : Nat)
    (nd : Option Int)
    (hsent : ∀ r ∈ tbl, r.record_id = recordId → r.sent = false)
    (huniq : (tbl.filter (fun r => r.record_id == recordId)).length ≤ 1) :
    ((∃ r ∈ (updateRecordReminder false tbl newId (some uid) recordId nd).2.2,
        r.record_id = recordId) ↔ nd.isSome) ∧
    (∀ r ∈ (updateRecordReminder false tbl newId (some uid) recordId nd).2.2,
        r.record_id = recordId → some r.due_date = nd) := by
  have hfeq : tbl.filter (fun r => r.record_id == recordId && r.sent == false)
      = tbl.filter (fun r => r.record_id == recordId) := by
    refine List.filter_congr fun r hr => ?_
    cases hrec : (r.record_id == recordId) with
    | false => simp [hrec]
    | true => simp [hrec, hsent r hr (by simpa using hrec)]
  rcases hF : tbl.filter (fun r => r.record_id == recordId) with _ | ⟨a, rest⟩
  · have hnone : ∀ r ∈ tbl, ¬ r.record_id = recordId := by
      intro r hr hrid
      have hp := List.filter_eq_nil_iff.mp hF r hr
      simp [hrid] at hp
    have hsel : selectSingleReminder tbl recordId = none := by
      simp only [selectSingleReminder, hfeq, hF]
    cases nd with
    | none =>
      simp only [updateRecordReminder, hsel]
      refine ⟨⟨fun hex => ?_, fun hcon => by simp at hcon⟩, fun r hr hrid => ?_⟩
      · obtain ⟨r, hr, hrid⟩ := hex
        exact absurd hrid (hnone r hr)
      · exact absurd hrid (hnone r hr)
    | some due =>
      simp only [updateRecordReminder, hsel, createReminder, Bool.false_eq_true,
        if_false]
      constructor
      · refine ⟨fun _ => rfl, fun _ => ?_⟩
        exact ⟨⟨newId, uid, recordId, due, false⟩, by simp, rfl⟩
      · intro r hr hrid
        rcases List.mem_append.mp hr with hmem | hmem
        · exact absurd hrid (hnone r hmem)
        · simp only [List.mem_singleton] at hmem
          subst hmem; rfl
  · have hrest : rest = [] := by
      have := hF ▸ huniq
      simpa using this
    subst hrest
    have haf : a ∈ tbl ∧ (a.record_id == recordId) = true := by
      have : a ∈ tbl.filter (fun r => r.record_id == recordId) := by
        rw [hF]; exact List.mem_singleton.mpr rfl
      simpa using List.mem_filter.mp this
    have hsel : selectSingleReminder tbl recordId = some a := by
      simp only [selectSingleReminder, hfeq, hF]
    cases nd with
    | none =>
      simp only [updateRecordReminder, hsel]
      refine ⟨⟨fun hex => ?_, fun hcon => by simp at hcon⟩, fun r hr hrid => ?_⟩
      · obtain ⟨r, hr, hrid⟩ := hex
        have := (List.mem_filter.mp hr).2
        simp [hrid] at this
      · have := (List.mem_filter.mp hr).2
        simp [hrid] at this
    | some due =>
      simp only [updateRecordReminder, hsel]
      constructor
      · refine ⟨fun _ => rfl, fun _ => ?_⟩
        refine ⟨{ a with due_date := due }, ?_, by simpa using (beq_iff_eq.mp haf.2)⟩
        refine List.mem_map.mpr ⟨a, haf.1, ?_⟩
        rw [if_pos haf.2]
      · intro r hr hrid
        obtain ⟨r1, hr1, hreq⟩ := List.mem_map.mp hr
        by_cases hc : (r1.record_id == recordId) = true
        · rw [if_pos hc] at hreq; subst hreq; rfl
        · rw [if_neg hc] at hreq; subst hreq
          exact absurd (beq_iff_eq.mpr hrid) hc

/-- Concrete state for the C3 witness: an admin session. -/
def c3AdminState : DashState :=
  { records := [], reminders := [], filteredRecords := [],
    currentUser := some 1, currentUserRole := "admin", currentDeleteId := none }

/-- Concrete form for the C3 witness: dose 1, given at day 0, next due one
day later. -/
def c3Form : FormData := ⟨"COVID-19", "1", some 0, some msPerDay⟩

/-- Concrete store environment for the C3 witness: empty remote reminders
table, all writes succeed. -/
def c3Env : StoreEnv :=
  { insertRecordResult := some 5, insertReminderFails := false,
    updateRecordFails := false, deleteRecordFails := false,
    recordsResult := some [], remindersResult := some [],
    remoteReminders := [], freshReminderId := 9 }

/-- C3: after every successful `updateRecord` (admin caller, validation
passed, record update accepted, reminder writes succeeding), provided the
remote table holds at most one reminder for the record and none of its
reminders is marked sent, the remote reminders table ends with a reminder
for the record exactly when `next_due` is present; when present its due
date equals `next_due`, and when `next_due` is cleared every reminder of
the record has been deleted. -/
theorem c3_updateRecord_reminder_sync (now : Int) (st : DashState)
    (recordId : Nat) (fd : FormData) (env : StoreEnv) (uid : Nat)
    (hadmin : st.currentUserRole = "admin")
    (huser : st.currentUser = some uid)
    (hval : (validateVaccineFormData fd now).1 = true)
    (hupd : env.updateRecordFails = false)
    (hins : env.insertReminderFails = false)
    (hsent : ∀ r ∈ env.remoteReminders, r.record_id = recordId → r.sent = false)
    (huniq : (env.remoteReminders.filter
      (fun r => r.record_id == recordId)).length ≤ 1) :
    ((∃ r ∈ (updateRecord now st (some recordId) fd env).2,
        r.record_id = recordId) ↔ fd.next_due.isSome) ∧
    (∀ r ∈ (updateRecord now st (some recordId) fd env).2,
        r.record_id = recordId → some r.due_date = fd.next_due) := by
  have hstep : (updateRecord now st (some recordId) fd env).2 =
      (updateRecordReminder false env.remoteReminders env.freshReminderId
        (some uid) recordId fd.next_due).2.2 := by
    simp [updateRecord, checkAdminPermission, hadmin, huser, hupd, hval, hins]
  rw [hstep]
  exact updateRecordReminder_sync env.remoteReminders env.freshReminderId uid
    recordId fd.next_due hsent huniq

theorem c3_updateRecord_reminder_sync_witness :
    ((∃ r ∈ (updateRecord 0 c3AdminState (some 3) c3Form c3Env).2,
        r.record_id = 3) ↔ (c3Form.next_due).isSome) ∧
    (∀ r ∈ (updateRecord 0 c3AdminState (some 3) c3Form c3Env).2,
        r.record_id = 3 → some r.due_date = c3Form.next_due) :=
  c3_updateRecord_reminder_sync 0 c3AdminState 3 c3Form c3Env 1 rfl rfl
    (by decide) rfl rfl (by simp [c3Env]) (by decide)

/-! ## C4 — reminder-insert failure does not roll back the record insert -/

/-- C4: when the record insert of `addRecord` succeeds and the dependent
reminder insert then fails, the operation still completes as a success: a
single success toast (no error toast), the only store calls are the record
insert and the failed reminder insert — in particular no rollback of the
record insert — the failure shows up only as a log line, the remote
reminders table gains no row, and the dashboard proceeds to the normal
reload. -/
theorem c4_addRecord_partial_failure (now : Int) (st : DashState)
    (fd : FormData) (env : StoreEnv) (uid newId : Nat) (due : Int)
    (hadmin : st.currentUserRole = "admin")
    (huser : st.currentUser = some uid)
    (hval : (validateVaccineFormData fd now).1 = true)
    (hins : env.insertRecordResult = some newId)
    (hnd : fd.next_due = some due)
    (hfail : env.insertReminderFails = true) :
    (addRecord now st fd env).1.toasts =
      [("Vaccination record added successfully!", "success")] ∧
    (addRecord now st fd env).1.calls =
      [.insertRecordRow uid fd.vaccine_name ((parseIntJS fd.dose_number).getD 0)
        fd.date_given fd.next_due,
       .insertReminderRow uid newId due] ∧
    (∀ c ∈ (addRecord now st fd env).1.calls, ∀ rid, c ≠ .deleteRecordRow rid) ∧
    (addRecord now st fd env).1.logs = ["Error creating reminder"] ∧
    (addRecord now st fd env).2 = env.remoteReminders ∧
    (addRecord now st fd env).1.state = (loadVaccinationData st env).1 := by
  have hred : addRecord now st fd env =
      (⟨(loadVaccinationData st env).1,
        [("Vaccination record added successfully!", "success")],
        [.insertRecordRow uid fd.vaccine_name ((parseIntJS fd.dose_number).getD 0)
          fd.date_given fd.next_due,
         .insertReminderRow uid newId due],
        ["Error creating reminder"]⟩, env.remoteReminders) := by
    simp [addRecord, checkAdminPermission, hadmin, huser, hval, hins, hnd, hfail,
      createReminder, loadVaccinationData]
  rw [hred]
  refine ⟨rfl, rfl, ?_, rfl, rfl, rfl⟩
  intro c hc rid
  rcases List.mem_cons.mp hc with hc | hc
  · subst hc; simp
  · rcases List.mem_singleton.mp hc with hc
    subst hc; simp

/-- Store environment for the C4 witness: the record insert succeeds with
id 5, the dependent reminder insert fails. -/
def c4Env : StoreEnv :=
  { insertRecordResult := some 5, insertReminderFails := true,
    updateRecordFails := false, deleteRecordFails := false,
    recordsResult := some [], remindersResult := some [],
    remoteReminders := [], freshReminderId := 9 }

theorem c4_addRecord_partial_failure_witness :
    (addRecord 0 c3AdminState c3Form c4Env).1.toasts =
      [("Vaccination record added successfully!", "success")] ∧
    (addRecord 0 c3AdminState c3Form c4Env).1.calls =
      [.insertRecordRow 1 c3Form.vaccine_name
        ((parseIntJS c3Form.dose_number).getD 0) c3Form.date_given
        c3Form.next_due,
       .insertReminderRow 1 5 msPerDay] ∧
    (∀ c ∈ (addRecord 0 c3AdminState c3Form c4Env).1.calls, ∀ rid,
      c ≠ .deleteRecordRow rid) ∧
    (addRecord 0 c3AdminState c3Form c4Env).1.logs =
      ["Error creating reminder"] ∧
    (addRecord 0 c3AdminState c3Form c4Env).2 = c4Env.remoteReminders ∧
    (addRecord 0 c3AdminState c3Form c4Env).1.state =
      (loadVaccinationData c3AdminState c4Env).1 :=
  c4_addRecord_partial_failure 0 c3AdminState c3Form c4Env 1 5 msPerDay rfl rfl
    (by decide) rfl rfl rfl

/-! ## C5 — date validation rules -/

/-- C5: with the other fields well-formed, validation rejects a
`date_given` later than the end of today (tomorrow in particular) with the
specific date toast, and accepts `date_given` equal to today (any
midnight-parsed date up to the end of today); when `next_due` is present
it rejects `next_due ≤ date_given` with the specific next-due toast and
accepts `next_due = date_given + 1 day`; and whenever validation fails,
`addRecord` and `updateRecord` issue no store call at all. -/
theorem c5_validate_dates (now : Int) (fd : FormData) (d : Int)
    (hname : fd.vaccine_name ≠ "")
    (hdose : ∃ k, parseIntJS fd.dose_number = some k ∧ 1 ≤ k)
    (hgiven : fd.date_given = some d) :
    (endOfDay now < d →
      validateVaccineFormData fd now =
        (false, [("Date given cannot be in the future", "error")])) ∧
    (d ≤ endOfDay now → ∀ nd, fd.next_due = some nd → nd ≤ d →
      validateVaccineFormData fd now =
        (false, [("Next due date must be after the date given", "error")])) ∧
    (d ≤ endOfDay now →
      (fd.next_due = none ∨ fd.next_due = some (d + msPerDay)) →
      validateVaccineFormData fd now = (true, [])) ∧
    ((validateVaccineFormData fd now).1 = false →
      ∀ (st : DashState) (env : StoreEnv) (editId : Option Nat),
        (addRecord now st fd env).1.calls = [] ∧
        (updateRecord now st editId fd env).1.calls = []) := by
  obtain ⟨k, hk, hk1⟩ := hdose
  have hdne : (fd.dose_number == "") = false := by
    cases he : (fd.dose_number == "") with
    | false => rfl
    | true =>
      rw [beq_iff_eq.mp he] at hk
      rw [show parseIntJS "" = none from rfl] at hk
      exact Option.noConfusion hk
  have hnb : (fd.vaccine_name == "") = false := beq_eq_false_iff_ne.mpr hname
  have hm : msPerDay = 86400000 := rfl
  refine ⟨fun hfut => ?_, fun hok nd hnd hle => ?_, fun hok hnext => ?_,
    fun hfail st env editId => ?_⟩
  · simp [validateVaccineFormData, hnb, hdne, hgiven, hk,
      if_neg (by omega : ¬ k < 1), if_pos (by omega : d > endOfDay now)]
  · simp [validateVaccineFormData, hnb, hdne, hgiven, hk, hnd,
      if_neg (by omega : ¬ k < 1), if_neg (by omega : ¬ d > endOfDay now),
      if_pos hle]
  · rcases hnext with hnone | hsome
    · simp [validateVaccineFormData, hnb, hdne, hgiven, hk, hnone,
        if_neg (by omega : ¬ k < 1), if_neg (by omega : ¬ d > endOfDay now)]
    · simp [validateVaccineFormData, hnb, hdne, hgiven, hk, hsome,
        if_neg (by omega : ¬ k < 1), if_neg (by omega : ¬ d > endOfDay now),
        if_neg (by omega : ¬ d + msPerDay ≤ d)]
      omega
  · constructor
    · simp only [addRecord]
      rcases hgate : checkAdminPermission st.currentUserRole
          "add vaccination records" with ⟨ok, toasts⟩
      cases ok with
      | false => simp
      | true => simp [hfail]
    · simp only [updateRecord]
      rcases hgate : checkAdminPermission st.currentUserRole
          "update vaccination records" with ⟨ok, toasts⟩
      cases ok with
      | false => simp
      | true =>
        cases editId with
        | none => simp
        | some rid => simp [hfail]

theorem c5_validate_dates_witness :
    validateVaccineFormData ⟨"COVID-19", "1", some msPerDay, none⟩ 0 =
      (false, [("Date given cannot be in the future", "error")]) :=
  (c5_validate_dates 0 ⟨"COVID-19", "1", some msPerDay, none⟩ msPerDay
    (by decide) ⟨1, by decide, by decide⟩ rfl).1 (by decide)

/-! ## C6 — dose-number validation -/

/-- C6: with the required fields present, validation rejects every
`dose_number` whose `parseInt` value is not an integer at least 1 — which
covers `"0"`, `"-1"` and `"abc"`, as the middle conjunct computes — with
the specific dose toast surfaced, and accepts `dose_number = "1"`
(yielding full acceptance when the date rules also hold). -/
theorem c6_validate_dose (now : Int) (fd : FormData) :
    (fd.vaccine_name ≠ "" → fd.dose_number ≠ "" → fd.date_given.isSome →
      (∀ k, parseIntJS fd.dose_number = some k → k < 1) →
      validateVaccineFormData fd now =
        (false, [("Dose number must be a positive integer", "error")])) ∧
    (parseIntJS "0" = some 0 ∧ parseIntJS "-1" = some (-1) ∧
      parseIntJS "abc" = none) ∧
    (fd.dose_number = "1" → fd.vaccine_name ≠ "" →
      ∀ d, fd.date_given = some d → d ≤ endOfDay now →
      (∀ nd, fd.next_due = some nd → d < nd) →
      validateVaccineFormData fd now = (true, [])) := by
  refine ⟨fun hname hdose hdate hbad => ?_, by refine ⟨rfl, rfl, rfl⟩,
    fun hone hname d hd hdle hnd => ?_⟩
  · have hnb : (fd.vaccine_name == "") = false := beq_eq_false_iff_ne.mpr hname
    have hdb : (fd.dose_number == "") = false := beq_eq_false_iff_ne.mpr hdose
    obtain ⟨d0, hd0⟩ := Option.isSome_iff_exists.mp hdate
    rcases hk : parseIntJS fd.dose_number with _ | k
    · simp [validateVaccineFormData, hnb, hdb, hd0, hk]
    · simp [validateVaccineFormData, hnb, hdb, hd0, hk, if_pos (hbad k hk)]
  · have hnb : (fd.vaccine_name == "") = false := beq_eq_false_iff_ne.mpr hname
    have hk : parseIntJS fd.dose_number = some 1 := by rw [hone]; rfl
    have hdb : (fd.dose_number == "") = false := by
      rw [hone]; decide
    rcases hfd : fd.next_due with _ | nd
    · simp [validateVaccineFormData, hnb, hdb, hd, hk, hfd,
        if_neg (by omega : ¬ (1 : Int) < 1), if_neg (by omega : ¬ d > endOfDay now)]
    · have hlt := hnd nd hfd
      simp [validateVaccineFormData, hnb, hdb, hd, hk, hfd,
        if_neg (by omega : ¬ (1 : Int) < 1), if_neg (by omega : ¬ d > endOfDay now),
        if_neg (by omega : ¬ nd ≤ d)]

theorem c6_validate_dose_witness :
    validateVaccineFormData ⟨"COVID-19", "0", some 0, none⟩ 0 =
      (false, [("Dose number must be a positive integer", "error")]) :=
  (c6_validate_dose 0 ⟨"COVID-19", "0", some 0, none⟩).1 (by decide) (by decide)
    (by decide)
    (by
      intro k hk
      rw [show parseIntJS "0" = some 0 from rfl] at hk
      have hzero : (0 : Int) = k := Option.some_inj.mp hk
      omega)

/-! ## C7 — search semantics -/

theorem matchesSearch_iff (term : String) (r : VaccinationRecord) :
    matchesSearch term r = true ↔
      strIncludes (toLowerStr r.vaccine_name) term = true ∨
      ∃ p, r.profiles = some p ∧
        ((∃ n, p.full_name = some n ∧ n ≠ "" ∧
            strIncludes (toLowerStr n) term = true) ∨
         (∃ e, p.email = some e ∧ e ≠ "" ∧
            strIncludes (toLowerStr e) term = true)) := by
  simp only [matchesSearch, Bool.or_eq_true]
  cases hp : r.profiles with
  | none => simp
  | some p =>
    cases hn : p.full_name with
    | none =>
      cases he : p.email with
      | none => simp [hn, he]
      | some e =>
        simp [hn, he, Bool.and_eq_true, Bool.not_eq_true', beq_eq_false_iff_ne,
          and_assoc]
    | some n =>
      cases he : p.email with
      | none =>
        simp [hn, he, Bool.and_eq_true, Bool.not_eq_true', beq_eq_false_iff_ne,
          and_assoc]
      | some e =>
        simp [hn, he, Bool.and_eq_true, Bool.not_eq_true', beq_eq_false_iff_ne,
          Bool.or_eq_true, and_assoc, or_assoc]

/-- A non-admin (user-role) state whose single record is "Influenza" but
whose joined owner email contains "covid". -/
def c7Record : VaccinationRecord :=
  ⟨1, 7, "Influenza", 1, 0, none, some ⟨some "Bob", some "covid@example.com"⟩⟩

/-- The user-role dashboard state holding `c7Record`. -/
def c7UserState : DashState :=
  { records := [c7Record], reminders := [], filteredRecords := [c7Record],
    currentUser := some 7, currentUserRole := "user", currentDeleteId := none }

/-- C7 counterexample: in a non-admin state, `performSearch "covid"` keeps
a record whose vaccine name does not contain the term, because the
owner-profile email matches — the owner-name/email broadening applies in
every role, not only in the admin view, so filteredRecords is not
"exactly the records whose vaccine name contains the term" for a
non-admin. -/
theorem c7_search_counterexample :
    c7UserState.currentUserRole ≠ "admin" ∧
    strIncludes (toLowerStr c7Record.vaccine_name)
      (trimStr (toLowerStr "covid")) = false ∧
    (performSearch c7UserState "covid").filteredRecords = [c7Record] := by
  decide

/-- C7 (amended): for every state and term, `performSearch` leaves
records, reminders, user and role unchanged (and, having no store-call
output, issues no store call); a term that trims to empty restores the
full records list; otherwise `filteredRecords` holds exactly the
in-memory records whose lower-cased vaccine name contains the trimmed
lower-cased term, or — whenever the record carries joined owner profile
data, regardless of the current role — whose non-empty owner full name or
email contains it. -/
theorem c7_search_characterization (st : DashState) (t : String) :
    (performSearch st t).records = st.records ∧
    (performSearch st t).reminders = st.reminders ∧
    (performSearch st t).currentUser = st.currentUser ∧
    (performSearch st t).currentUserRole = st.currentUserRole ∧
    (trimStr (toLowerStr t) = "" →
      (performSearch st t).filteredRecords = st.records) ∧
    (trimStr (toLowerStr t) ≠ "" → ∀ r,
      r ∈ (performSearch st t).filteredRecords ↔
        r ∈ st.records ∧
        (strIncludes (toLowerStr r.vaccine_name) (trimStr (toLowerStr t)) = true ∨
         ∃ p, r.profiles = some p ∧
           ((∃ n, p.full_name = some n ∧ n ≠ "" ∧
               strIncludes (toLowerStr n) (trimStr (toLowerStr t)) = true) ∨
            (∃ e, p.email = some e ∧ e ≠ "" ∧
               strIncludes (toLowerStr e) (trimStr (toLowerStr t)) = true)))) := by
  by_cases hterm : trimStr (toLowerStr t) = ""
  · have hb : (trimStr (toLowerStr t) == "") = true := beq_iff_eq.mpr hterm
    have hps : performSearch st t = { st with filteredRecords := st.records } := by
      simp [performSearch, hb]
    rw [hps]
    exact ⟨rfl, rfl, rfl, rfl, fun _ => rfl, fun hne => absurd hterm hne⟩
  · have hb : (trimStr (toLowerStr t) == "") = false := beq_eq_false_iff_ne.mpr hterm
    have hps : performSearch st t = { st with
        filteredRecords :=
          st.records.filter (matchesSearch (trimStr (toLowerStr t))) } := by
      simp [performSearch, hb]
    rw [hps]
    refine ⟨rfl, rfl, rfl, rfl, fun h => absurd h hterm, fun _ r => ?_⟩
    show r ∈ st.records.filter (matchesSearch (trimStr (toLowerStr t))) ↔ _
    rw [List.mem_filter]
    exact and_congr_right fun _ => matchesSearch_iff (trimStr (toLowerStr t)) r

theorem c7_search_characterization_witness :
    (performSearch c7UserState "").filteredRecords = c7UserState.records :=
  (c7_search_characterization c7UserState "").2.2.2.2.1 (by decide)

/-! ## C8 — statistics counters -/

/-- A reminder due at midnight of day 0. -/
def c8Reminder : Reminder := ⟨1, 1, 1, 0, false⟩

/-- A state holding only `c8Reminder`. -/
def c8State : DashState :=
  { records := [], reminders := [c8Reminder], filteredRecords := [],
    currentUser := some 1, currentUserRole := "user", currentDeleteId := none }

/-- C8 counterexample: a reminder whose due date falls on the same
calendar day as `now` (it is due today) is counted as overdue and not as
upcoming as soon as `now` is one millisecond past midnight — the code
compares against the full current timestamp, so "overdue = due strictly
before today" and "upcoming = due in [today, today+30d]" fail at the
boundary. -/
theorem c8_stats_counterexample :
    sameCalendarDay c8Reminder.due_date 1 = true ∧
    updateStats c8State 1 = (0, 0, 0, 1) := by decide

/-- Records and reminders realizing the spec's worked stats example
relative to the day of `now`: records with `next_due` null and yesterday,
reminders due yesterday and in 10 days. -/
def c8ExampleState (dayStart : Int) : DashState :=
  { records := [⟨1, 1, "A", 1, 0, none, none⟩,
                ⟨2, 1, "B", 1, 0, some (dayStart - msPerDay), none⟩],
    reminders := [⟨1, 1, 1, dayStart - msPerDay, false⟩,
                  ⟨2, 1, 2, dayStart + 10 * msPerDay, false⟩],
    filteredRecords := [], currentUser := some 1, currentUserRole := "user",
    currentDeleteId := none }

/-- C8 (amended): the four counters are computed from the full in-memory
record/reminder sets — `filteredRecords` never affects them — as: total =
number of records; up-to-date = records with no `next_due` or `next_due`
strictly after the current timestamp; upcoming = reminders with due
timestamp in `[now, now + 30 days]`; overdue = reminders with due
timestamp strictly before `now` — where `now` is the exact current
time, not midnight, so a reminder due today counts as overdue once `now`
is past midnight.  On the spec's example (records with `next_due` null
and yesterday, reminders due yesterday and in 10 days) the counters are
total 2, up-to-date 1, upcoming 1, overdue 1 at every time of day. -/
theorem c8_stats_characterization (st : DashState) (now : Int)
    (fr : List VaccinationRecord) :
    updateStats { st with filteredRecords := fr } now = updateStats st now ∧
    (updateStats st now).1 = st.records.length ∧
    updateStats (c8ExampleState (startOfDay now)) now = (2, 1, 1, 1) := by
  have h1 : startOfDay now ≤ now := startOfDay_le now
  have h2 : now < startOfDay now + msPerDay := lt_startOfDay_add now
  have hm : msPerDay = 86400000 := rfl
  refine ⟨rfl, rfl, ?_⟩
  have e1 : decide (now < startOfDay now - msPerDay) = false :=
    decide_eq_false (by omega)
  have e2 : decide (now ≤ startOfDay now - msPerDay) = false :=
    decide_eq_false (by omega)
  have e4 : decide (now ≤ startOfDay now + 10 * msPerDay) = true :=
    decide_eq_true (by omega)
  have e5 : decide (startOfDay now + 10 * msPerDay ≤ now + 30 * msPerDay) = true :=
    decide_eq_true (by omega)
  have e6 : decide (startOfDay now - msPerDay < now) = true :=
    decide_eq_true (by omega)
  have e7 : decide (startOfDay now + 10 * msPerDay < now) = false :=
    decide_eq_false (by omega)
  simp [updateStats, c8ExampleState, List.filter, e1, e2, e4, e5, e6, e7]

/-! ## C9 — filteredRecords is always a sublist of records -/

/-- The implicit view-model invariant: `filteredRecords` is a sublist of
`records`. -/
def dashInv (st : DashState) : Prop :=
  List.Sublist st.filteredRecords st.records

theorem dashInv_loadVaccinationData (st : DashState) (env : StoreEnv) :
    dashInv (loadVaccinationData st env).1 := by
  rcases hcu : st.currentUser with _ | u <;>
    simp only [dashInv, loadVaccinationData, hcu]
  · exact List.nil_sublist _
  · exact List.Sublist.refl _

theorem addRecord_state_eq (now : Int) (st : DashState) (fd : FormData)
    (env : StoreEnv) :
    (addRecord now st fd env).1.state = st ∨
    (addRecord now st fd env).1.state = (loadVaccinationData st env).1 := by
  simp only [addRecord]
  split
  · exact Or.inl rfl
  · split
    · exact Or.inl rfl
    · split
      · exact Or.inl rfl
      · split
        · exact Or.inl rfl
        · exact Or.inr rfl

theorem updateRecord_state_eq (now : Int) (st : DashState)
    (editId : Option Nat) (fd : FormData) (env : StoreEnv) :
    (updateRecord now st editId fd env).1.state = st ∨
    (updateRecord now st editId fd env).1.state = (loadVaccinationData st env).1 := by
  simp only [updateRecord]
  split
  · exact Or.inl rfl
  · split
    · exact Or.inl rfl
    · split
      · exact Or.inl rfl
      · split
        · exact Or.inl rfl
        · exact Or.inr rfl

theorem editRecord_state_eq (st : DashState) (recId : Nat) :
    (editRecord st recId).state = st := by
  simp only [editRecord]
  split
  · rfl
  · split
    · rfl
    · split <;> rfl

theorem deleteRecord_state_cases (st : DashState) (recId : Nat) :
    (deleteRecord st recId).state = st ∨
    (deleteRecord st recId).state = { st with currentDeleteId := some recId } := by
  simp only [deleteRecord]
  split
  · exact Or.inl rfl
  · split
    · exact Or.inl rfl
    · split
      · exact Or.inr rfl
      · exact Or.inl rfl

theorem confirmDelete_state_cases (st : DashState) (env : StoreEnv) :
    (confirmDelete st env).1.state = st ∨
    (confirmDelete st env).1.state =
      { (loadVaccinationData st env).1 with currentDeleteId := none } := by
  simp only [confirmDelete]
  split
  · exact Or.inl rfl
  · split
    · exact Or.inl rfl
    · split
      · exact Or.inl rfl
      · exact Or.inr rfl

/-- C9: every element of `filteredRecords` is an element of `records` —
`filteredRecords` is a sublist of `records`.  The invariant holds in the
initial state and is preserved by every operation that touches the two
arrays: reload (which copies `records`), `performSearch` (which filters
it), every mutation path (which either leaves the state untouched or ends
in the reload), the modal-opening paths, and `destroy`. -/
theorem c9_filteredRecords_sublist (st : DashState) (h : dashInv st)
    (t : String) (env : StoreEnv) (now : Int) (fd : FormData) (recId : Nat)
    (editId : Option Nat) :
    dashInv initialDashState ∧
    dashInv (performSearch st t) ∧
    dashInv (loadVaccinationData st env).1 ∧
    dashInv (destroy st) ∧
    dashInv (addRecord now st fd env).1.state ∧
    dashInv (editRecord st recId).state ∧
    dashInv (updateRecord now st editId fd env).1.state ∧
    dashInv (deleteRecord st recId).state ∧
    dashInv (confirmDelete st env).1.state := by
  have hload : dashInv (loadVaccinationData st env).1 :=
    dashInv_loadVaccinationData st env
  refine ⟨List.nil_sublist _, ?_, hload, List.nil_sublist _, ?_, ?_, ?_, ?_, ?_⟩
  · cases hb : (trimStr (toLowerStr t) == "") with
    | true =>
      simp only [dashInv, performSearch, hb, if_true]
      exact List.Sublist.refl _
    | false =>
      simp only [dashInv, performSearch, hb, Bool.false_eq_true, if_false]
      exact List.filter_sublist _
  · rcases addRecord_state_eq now st fd env with he | he <;> rw [he]
    · exact h
    · exact hload
  · rw [editRecord_state_eq st recId]; exact h
  · rcases updateRecord_state_eq now st editId fd env with he | he <;> rw [he]
    · exact h
    · exact hload
  · rcases deleteRecord_state_cases st recId with he | he <;> rw [he]
    · exact h
    · exact h
  · rcases confirmDelete_state_cases st env with he | he <;> rw [he]
    · exact h
    · exact hload

theorem c9_filteredRecords_sublist_witness :
    dashInv initialDashState ∧
    dashInv (performSearch c7UserState "covid") ∧
    dashInv (loadVaccinationData c7UserState c3Env).1 ∧
    dashInv (destroy c7UserState) ∧
    dashInv (addRecord 0 c7UserState c3Form c3Env).1.state ∧
    dashInv (editRecord c7UserState 1).state ∧
    dashInv (updateRecord 0 c7UserState (some 1) c3Form c3Env).1.state ∧
    dashInv (deleteRecord c7UserState 1).state ∧
    dashInv (confirmDelete c7UserState c3Env).1.state :=
  c9_filteredRecords_sublist c7UserState (List.Sublist.refl _) "covid" c3Env 0
    c3Form 1 (some 1)

/-! ## C10 — non-integer dose strings pass validation and are truncated -/

/-- A form whose dose field is the non-integer string "1.5". -/
def c10Form : FormData := ⟨"COVID-19", "1.5", some 0, some msPerDay⟩

/-- A form whose dose field is the non-integer string "2abc". -/
def c10FormB : FormData := ⟨"COVID-19", "2abc", some 0, some msPerDay⟩

/-- C10: `parseInt` truncates "1.5" to 1 and "2abc" to 2; both forms pass
validation; `addRecord` then inserts the record with dose 1 and
`updateRecord` updates it with dose 2 — the leading integer is what gets
persisted.  In general the dose rule never rejects a dose string whose
`parseInt` value is at least 1. -/
theorem c10_noninteger_dose_truncation :
    parseIntJS "1.5" = some 1 ∧ parseIntJS "2abc" = some 2 ∧
    validateVaccineFormData c10Form 0 = (true, []) ∧
    validateVaccineFormData c10FormB 0 = (true, []) ∧
    (addRecord 0 c3AdminState c10Form c3Env).1.calls =
      [.insertRecordRow 1 "COVID-19" 1 (some 0) (some msPerDay),
       .insertReminderRow 1 5 msPerDay] ∧
    (updateRecord 0 c3AdminState (some 3) c10FormB c3Env).1.calls =
      [.updateRecordRow 3 "COVID-19" 2 (some 0) (some msPerDay),
       .selectReminderRow 3, .insertReminderRow 1 3 msPerDay] ∧
    (∀ (fd : FormData) (now : Int) (k : Int),
      parseIntJS fd.dose_number = some k → 1 ≤ k →
      (validateVaccineFormData fd now).2 ≠
        [("Dose number must be a positive integer", "error")]) := by
  refine ⟨by decide, by decide, by decide, by decide, by decide, by decide, ?_⟩
  intro fd now k hk hk1
  simp only [validateVaccineFormData, hk, if_neg (by omega : ¬ k < 1)]
  split
  · decide
  · split
    · decide
    · split
      · split
        · decide
        · decide
      · decide

theorem c10_noninteger_dose_truncation_witness :
    (validateVaccineFormData c10Form 0).2 ≠
      [("Dose number must be a positive integer", "error")] :=
  c10_noninteger_dose_truncation.2.2.2.2.2.2 c10Form 0 1 (by decide) (by decide)
